import Mathlib

/-!
Verification of invenio-bulk-importer against its natural-language
specification.  Python functions from the repository are shallowly
embedded as Lean definitions: dictionaries become association lists or
functions into `Option`, Python `int` becomes `Int`, fallible lookups
become `Except`/`Option`, and the effectful record-type methods become
explicit state-passing functions over a `RecordState` structure, with
the external collaborators (HTTP, S3/GCS, the community registry, the
marshmallow schema) supplied as environment records.
-/

/- ============================================================
   services/states.py
   ============================================================ -/

/-- Values of `ImporterRecordState` (services/states.py, lines 15-24). -/
def importerRecordStateValues : List String :=
  ["created", "validating", "serializer validation failed",
   "validation failed", "validated", "import failed", "success"]

/-- Values of `ImporterTaskState` (services/states.py, lines 27-37). -/
def importerTaskStateValues : List String :=
  ["created", "validating", "validated with failures", "validated",
   "importing", "imported with failures", "success", "damaged"]

/-- `record_states.get(state.value, 0)`: the helper `state_count` of
`TaskStateCalculator.calculate_task_state`.  The dictionary is modelled
as a function into `Option Int`. -/
def state_count (record_states : String → Option Int) (s : String) : Int :=
  (record_states s).getD 0

/-- The `if`-chain of `calculate_task_state` after the counts are
extracted (services/states.py, lines 70-109), as a pure function of the
six counts and `total_records`. -/
def task_state_core (total_records created_count serializer_validation_failed_count
    validation_failed_count validated_count import_failed_count success_count : Int) :
    String :=
  if total_records = 0 then "created"
  else if created_count > 0 ∧ (serializer_validation_failed_count = 0 ∨
      validation_failed_count = 0 ∨ validated_count = 0) then "created"
  else if created_count > 0 ∧ (serializer_validation_failed_count > 0 ∨
      validation_failed_count > 0 ∨ validated_count > 0) then "validating"
  else if validation_failed_count > 0 ∨ serializer_validation_failed_count > 0 then
    "validated with failures"
  else if validated_count = total_records ∧ created_count = 0 then "validated"
  else if validated_count > 0 ∧ (import_failed_count > 0 ∨ success_count > 0) then
    "importing"
  else if validated_count = 0 ∧ import_failed_count > 0 then "imported with failures"
  else if success_count = total_records then "success"
  else "damaged"

/-- `TaskStateCalculator.calculate_task_state` (services/states.py,
lines 40-109).  `record_states["total_records"]` raises `KeyError` when
the key is missing, modelled as `Except.error`; every other count is
read with `.get(..., 0)`. -/
def calculate_task_state (record_states : String → Option Int) : Except String String :=
  match record_states "total_records" with
  | none => Except.error "KeyError: total_records"
  | some total_records =>
      Except.ok (task_state_core total_records
        (state_count record_states "created")
        (state_count record_states "serializer validation failed")
        (state_count record_states "validation failed")
        (state_count record_states "validated")
        (state_count record_states "import failed")
        (state_count record_states "success"))

example :
    calculate_task_state (fun k =>
      if k = "total_records" then some 5
      else if k = "created" then some 2
      else if k = "serializer validation failed" then some 1
      else if k = "validation failed" then some 1
      else if k = "validated" then some 1 else none) =
    Except.ok "validating" := by rfl

example :
    calculate_task_state (fun k =>
      if k = "total_records" then some 5
      else if k = "import failed" then some 3
      else if k = "success" then some 1 else none) =
    Except.ok "imported with failures" := by rfl

example :
    calculate_task_state (fun k =>
      if k = "total_records" then some 2
      else if k = "created" then some 1
      else if k = "validated" then some 1 else none) =
    Except.ok "created" := by rfl

/- ============================================================
   services/tasks.py — the status written by the run step
   ============================================================ -/

/-- The status string written by `run_transformed_record`
(services/tasks.py, lines 73-75):
`"success" if rdm_record.is_successful else "creation failed"`. -/
def run_transformed_record_status (is_successful : Bool) : String :=
  if is_successful then "success" else "creation failed"

/-- `validate_record_status` (services/schemas.py, lines 69-71 via
`_validate_status`): a status value is accepted exactly when it is one
of the `ImporterRecordState` values. -/
def validate_record_status (value : String) : Bool :=
  importerRecordStateValues.contains value

/- ============================================================
   serializers/records/utils.py — process_grouped_fields
   ============================================================ -/

/-- Worker for `pySplit`: accumulates the current chunk (reversed) and
starts a new chunk at every separator, exactly as Python's
`str.split(sep)` does for a one-character separator. -/
def pySplitAux (sep : Char) : List Char → List Char → List (List Char)
  | [], acc => [acc.reverse]
  | c :: cs, acc =>
      if c = sep then acc.reverse :: pySplitAux sep cs []
      else pySplitAux sep cs (c :: acc)

/-- Python `value.split(sep)` for a one-character separator: always a
non-empty list, and `"".split(sep) == [""]`.  (Lean's own `String`
primitives do not reduce in the kernel, so splitting is implemented
over the character list.) -/
def pySplit (sep : Char) (s : String) : List String :=
  (pySplitAux sep s.data []).map String.mk

/-- Truthiness of Python `value.strip()`: the stripped string is empty
exactly when every character is whitespace. -/
def pyBlank (s : String) : Bool :=
  s.data.all Char.isWhitespace

/-- Python `key.startswith(pre)`. -/
def pyStartswith (pre s : String) : Bool :=
  pre.data.isPrefixOf s.data

/-- Python `sep.join(parts)`. -/
def pyJoin (sep : String) (parts : List String) : String :=
  String.mk (List.intercalate sep.data (parts.map String.data))

/-- The columns selected for a group:
`{key: value for key, value in original.items() if key.startswith(f"{prefix}.")}`
(utils.py, lines 65-67).  A CSV row is an association list with distinct
keys, in the insertion order a Python dict preserves. -/
def groupColumns (original : List (String × String)) (group_pre : String) :
    List (String × String) :=
  original.filter (fun kv => pyStartswith (group_pre ++ ".") kv.1)

/-- `num_items = max(len(value.split("\n")) for value in group_input.values())`
with the surrounding `try`/`except` sending the empty group to `0`
(utils.py, lines 69-72). -/
def numGroupItems (group_input : List (String × String)) : Nat :=
  (group_input.map (fun kv => (pySplit '\n' kv.2).length)).foldr max 0

/-- `".".join(parts[1:])` for `parts = key.split(".")`: everything after
the first dot of the column name (utils.py, lines 79-81). -/
def columnSuffix (key : String) : String :=
  pyJoin "." (pySplit '.' key).tail

/-- The body of the `for i in range(num_items)` loop of
`process_grouped_fields` (utils.py, lines 77-83): one item dict, a key
per selected column, whose value is the i-th slice of that column's
newline split if present and non-blank, else `None`. -/
def groupItem (group_input : List (String × String)) (i : Nat) :
    List (String × Option String) :=
  group_input.map (fun kv =>
    let values := pySplit '\n' kv.2
    (columnSuffix kv.1,
      if i < values.length ∧ pyBlank (values.getD i "") = false then
        some (values.getD i "")
      else none))

/-- `process_grouped_fields` (utils.py, lines 56-88): build an item per
index up to the max split length and drop any item whose values are all
`None`. -/
def process_grouped_fields (original : List (String × String)) (group_pre : String) :
    List (List (String × Option String)) :=
  let group_input := groupColumns original group_pre
  ((List.range (numGroupItems group_input)).map (groupItem group_input)).filter
    (fun item => !item.all (fun kv => kv.2.isNone))

example :
    process_grouped_fields
      [("creators.given_name", "Ada\nGrace"),
       ("creators.family_name", "Lovelace\nHopper"),
       ("title", "x")] "creators" =
    [[("given_name", some "Ada"), ("family_name", some "Lovelace")],
     [("given_name", some "Grace"), ("family_name", some "Hopper")]] := by decide

example :
    process_grouped_fields
      [("creators.given_name", "Ada"),
       ("creators.family_name", "Lovelace\nHopper")] "creators" =
    [[("given_name", some "Ada"), ("family_name", some "Lovelace")],
     [("given_name", none), ("family_name", some "Hopper")]] := by decide

example :
    process_grouped_fields [("creators.given_name", " "),
      ("creators.family_name", "")] "creators" = [] := by decide

/- ============================================================
   record_types/base.py — state, errors, file and community mixins
   ============================================================ -/

/-- The structured error shape `{type, loc, msg}` (errors collected by
`RecordType._add_error`). -/
structure ErrorMessage where
  type : String
  loc : String
  msg : String
deriving DecidableEq, Repr

/-- One entry of `_validated_files` as built by
`FileMixin._add_validated_file` (base.py, lines 160-170). -/
structure ValidatedFile where
  key : String
  full_path : String
  size : Option Int
  origin : String
deriving DecidableEq, Repr

/-- `_community_uuids = dict(default=None, ids=[])`
(base.py, line 90). -/
structure CommunityUuids where
  default : Option String
  ids : List String
deriving DecidableEq, Repr

/-- The transformed record payload (`self._record`); its internal shape
is irrelevant to the claims, a JSON-object-like association list. -/
abbrev RecordData := List (String × String)

/-- The mutable state of a `RecordType` instance that the validation
methods touch: `_errors`, `is_successful`, `_validated_files`,
`_community_uuids` and `_record`. -/
structure RecordState where
  errors : List ErrorMessage
  is_successful : Bool
  validated_files : List ValidatedFile
  community_uuids : CommunityUuids
  record : Option RecordData
deriving DecidableEq, Repr

/-- The state of a freshly constructed record type: no errors,
`is_successful = True`, no validated files, empty community uuids and
`_record = None`. -/
def initRecordState : RecordState :=
  { errors := [], is_successful := true, validated_files := [],
    community_uuids := { default := none, ids := [] }, record := none }

/-- `RecordType._add_error` (base.py, lines 64-69): append the error and
set `is_successful = False`. -/
def add_error (st : RecordState) (e : ErrorMessage) : RecordState :=
  { st with errors := st.errors ++ [e], is_successful := false }

/-- `FileMixin._get_file_name` (base.py, lines 142-158): classify the
origin by prefix sniffing and keep the last `/`-separated component as
the key (the whole name for a local file). -/
def get_file_name (file_name : String) : String × String :=
  if pyStartswith "http://" file_name || pyStartswith "https://" file_name then
    ((pySplit '/' file_name).getLastD file_name, "url")
  else if pyStartswith "s3:" file_name then
    ((pySplit '/' file_name).getLastD file_name, "s3")
  else if pyStartswith "gs:" file_name then
    ((pySplit '/' file_name).getLastD file_name, "gs")
  else (file_name, "local")

/-- `FileMixin._add_validated_file` (base.py, lines 160-170).  The
Python `int(size) if size else None` sends a falsy size (`None` or `0`)
to `None`; the size is modelled already parsed as an integer. -/
def add_validated_file (st : RecordState) (file : String) (size : Option Int) :
    RecordState :=
  let fn := get_file_name file
  { st with validated_files := st.validated_files ++
      [{ key := fn.1, full_path := file,
         size := if size = some 0 then none else size, origin := fn.2 }] }

/-- Outcome of `requests.head(file, timeout=10)`: a response with a
status code and an optional parsed `Content-Length`, or a raised
exception with its message. -/
inductive HeadOutcome
  | response (status : Nat) (contentLength : Option Int)
  | exn (msg : String)
deriving DecidableEq, Repr

/-- Outcome of the anonymous S3 `head_object` call: the optional
`ContentLength`, or a raised exception. -/
inductive S3Outcome
  | found (contentLength : Option Int)
  | exn (msg : String)
deriving DecidableEq, Repr

/-- Outcome of the anonymous GCS blob probe: the blob does not exist,
exists with a size, or the client raised. -/
inductive GsOutcome
  | missing
  | found (size : Int)
  | exn (msg : String)
deriving DecidableEq, Repr

/-- The external world the file checks consult: HTTP HEAD, S3, GCS and
the task's local bucket listing (`ObjectVersion.get_by_bucket`, a map
from basename to file size). -/
structure FileEnv where
  head : String → HeadOutcome
  s3 : String → S3Outcome
  gs : String → GsOutcome
  bucket : List (String × Int)

/-- `FileMixin._check_url_file_accessibility` (base.py, lines 172-193):
on a response, a status code `>= 400` adds a `file_not_accessible`
error but the file is nevertheless appended to the validated list; only
a raised request leaves it out. -/
def check_url_file_accessibility (env : FileEnv) (st : RecordState) (file : String) :
    RecordState :=
  match env.head file with
  | HeadOutcome.response status contentLength =>
      let st := if status ≥ 400 then
          add_error st
            { type := "file_not_accessible", loc := "files",
              msg := "Error accessing URL file '" ++ file ++
                "' returned status code " ++ toString status ++ "." }
        else st
      add_validated_file st file contentLength
  | HeadOutcome.exn m =>
      add_error st
        { type := "file_not_accessible", loc := "files",
          msg := "Error accessing URL file '" ++ file ++ "': " ++ m }

/-- `FileMixin._check_s3_file_accessibility` (base.py, lines 226-246). -/
def check_s3_file_accessibility (env : FileEnv) (st : RecordState) (file : String) :
    RecordState :=
  match env.s3 file with
  | S3Outcome.found contentLength => add_validated_file st file contentLength
  | S3Outcome.exn m =>
      add_error st
        { type := "file_not_accessible", loc := "files",
          msg := "Error accessing S3 file '" ++ file ++ "': " ++ m }

/-- `FileMixin._check_gs_file_accessibility` (base.py, lines 195-224). -/
def check_gs_file_accessibility (env : FileEnv) (st : RecordState) (file : String) :
    RecordState :=
  match env.gs file with
  | GsOutcome.missing =>
      add_error st
        { type := "file_not_accessible", loc := "files",
          msg := "Error accessing GCS file '" ++ file ++ "' does not exist." }
  | GsOutcome.found size => add_validated_file st file (some size)
  | GsOutcome.exn m =>
      add_error st
        { type := "file_not_accessible", loc := "files",
          msg := "Error accessing GCS file '" ++ file ++ "': " ++ m }

/-- `FileMixin._check_invenio_file_accessibility` (base.py, lines
248-264): membership lookup in the bucket's object listing; an empty
listing or an absent key yields `file_not_found` and the file is not
added to the validated list. -/
def check_invenio_file_accessibility (env : FileEnv) (st : RecordState) (file : String) :
    RecordState :=
  match env.bucket.lookup file with
  | none =>
      add_error st
        { type := "file_not_found", loc := "files",
          msg := "File '" ++ file ++ "' not found in invenio bucket." }
  | some size => add_validated_file st file (some size)

/-- One iteration of the loop of `FileMixin._verify_files_accessible`
(base.py, lines 266-280): dispatch on the origin sniffed from the file
reference. -/
def check_file (env : FileEnv) (st : RecordState) (file : String) : RecordState :=
  if pyStartswith "http://" file || pyStartswith "https://" file then
    check_url_file_accessibility env st file
  else if pyStartswith "s3:" file then
    check_s3_file_accessibility env st file
  else if pyStartswith "gs:" file then
    check_gs_file_accessibility env st file
  else
    check_invenio_file_accessibility env st file

/-- `FileMixin._verify_files_accessible` (base.py, lines 266-280): every
file of the list is checked in order; no outcome stops the loop. -/
def verify_files_accessible (env : FileEnv) (st : RecordState) (files : List String) :
    RecordState :=
  files.foldl (check_file env) st

/-- The community registry: `current_communities.service.read` resolves
a slug to the community uuid, or raises `PIDDoesNotExistError`
(`none`); `RDM_COMMUNITY_REQUIRED_TO_PUBLISH` is the deployment flag
read in `_add_community_vars`. -/
structure CommunityEnv where
  resolve : String → Option String
  is_community_required : Bool

/-- One iteration of the `for idx, community_slug in enumerate(...)`
loop of `CommunityMixin._verify_communities_exist` (base.py, lines
103-119), with the running index made explicit. -/
def check_community (env : CommunityEnv) (st : RecordState) (idx : Nat)
    (community_slug : String) : RecordState :=
  match env.resolve community_slug with
  | some uuid =>
      let st := if idx = 0 then
          { st with community_uuids := { st.community_uuids with default := some uuid } }
        else st
      { st with community_uuids :=
          { st.community_uuids with ids := st.community_uuids.ids ++ [uuid] } }
  | none =>
      add_error st
        { type := "community_not_found", loc := "communities",
          msg := "Community '" ++ community_slug ++ "' not found." }

/-- The enumerate loop of `_verify_communities_exist`, starting at
index `idx`. -/
def check_communities_from (env : CommunityEnv) (st : RecordState) (idx : Nat) :
    List String → RecordState
  | [] => st
  | c :: cs => check_communities_from env (check_community env st idx c) (idx + 1) cs

/-- `CommunityMixin._verify_communities_exist` (base.py, lines 92-119):
an empty list with the community-required flag set yields a single
`community_not_provided` error; otherwise each slug is resolved in
order, the uuid of index 0 (only) becomes `default`, every resolved
uuid is appended to `ids`, and unresolved slugs add
`community_not_found` errors without stopping the loop. -/
def verify_communities_exist (env : CommunityEnv) (st : RecordState)
    (communities : List String) : RecordState :=
  if communities = [] ∧ env.is_community_required then
    add_error st
      { type := "community_not_provided", loc := "communities",
        msg := "At least one community is required to publish the record." }
  else
    check_communities_from env st 0 communities

example :
    (verify_communities_exist
      { resolve := fun s => if s = "good" then some "uuid-good" else none,
        is_community_required := false }
      initRecordState ["bad", "good"]).community_uuids =
    { default := none, ids := ["uuid-good"] } := by decide

/- ============================================================
   record_types/rdm.py — validate
   ============================================================ -/

/-- What the serializer hands to the `RDMRecord` constructor, after the
constructor's `pop` calls split the payload: `id` (popped in
`RecordType.__init__`), `files` and `communities` (popped by the
mixins), and the residual record payload (`None` when falsy). -/
structure SerializerPayload where
  id : Option String
  files : List String
  communities : List String
  record_data : Option RecordData

/-- The collaborators `RDMRecord.validate` consults beyond the file and
community environments: `read`/`read_draft` existence of a record id,
the marshmallow `schema.load` (taking the residual payload and the
files-enabled flag, returning the loaded record or the flattened
validation errors), and the pre-commit relation checks (a list of
errors computed from `self._record`, empty when everything passes). -/
structure ValidateEnv where
  fileEnv : FileEnv
  communityEnv : CommunityEnv
  recordExists : String → Bool
  schemaLoad : RecordData → Bool → Except (List ErrorMessage) RecordData
  preCommitErrors : Option RecordData → List ErrorMessage

/-- `InvenioRecordMixin._verify_record_exists` (base.py, lines 369-388):
a falsy id short-circuits to success; otherwise a failed read of both
the record and the draft adds `existing_record_not_found`. -/
def verify_record_exists (env : ValidateEnv) (st : RecordState)
    (record_id : Option String) : RecordState :=
  match record_id with
  | none => st
  | some rid =>
      if rid = "" then st
      else if env.recordExists rid then st
      else
        add_error st
          { type := "existing_record_not_found", loc := "record",
            msg := "Record '" ++ rid ++ "' not found." }

/-- `RDMRecord._verify_rdm_record_correctness` (rdm.py, lines 62-76):
run `schema.load` on the payload (with `files.enabled` set from whether
files are present); on success store the loaded record in `_record`, on
`ValidationError` add the flattened messages via
`_process_validation_errors`. -/
def verify_rdm_record_correctness (env : ValidateEnv) (st : RecordState)
    (data : RecordData) (has_files : Bool) : RecordState :=
  match env.schemaLoad data has_files with
  | Except.ok rec => { st with record := some rec }
  | Except.error errs => errs.foldl add_error st

/-- `RDMRecord.validate` (rdm.py, lines 119-141).  With no serializer
payload a `serialized_record_not_provided` error is added and `False`
is returned (the only outcome the method ever produces).  With a
payload, line 133 calls
`self._verify_record_exists(self.id, required=(mode == "delete"))`, but
`InvenioRecordMixin._verify_record_exists` (base.py, lines 369-388)
accepts only `record_id` — no `required` parameter and no `**kwargs` —
so CPython raises `TypeError` at the call itself, in both `import` and
`delete` mode and for any id, before any file, community, schema or
pre-commit check can run.  The raise is modelled as `Except.error`
carrying the interpreter's message. -/
def rdm_validate (env : ValidateEnv) (inp : SerializerPayload) (mode : String) :
    Except String RecordState :=
  match inp.record_data with
  | none =>
      Except.ok (add_error initRecordState
        { type := "serialized_record_not_provided", loc := "serialized_record",
          msg := "Existing serialized errors, cannot progress any further." })
  | some _ =>
      Except.error
        "TypeError: _verify_record_exists() got an unexpected keyword argument 'required'"

/-- The fields `validate_serialized_data` (services/tasks.py, lines
114-153) writes back to the importer record document. -/
structure ImporterRecordUpdate where
  status : String
  errors : List ErrorMessage
  serializer_data : Option RecordData
  transformed_data : Option RecordData
  community_uuids : Option CommunityUuids
  validated_record_files : Option (List ValidatedFile)
  existing_record_id : Option String
deriving DecidableEq, Repr

/-- The validation step `validate_serialized_data` (services/tasks.py,
lines 114-160): serializer errors short-circuit to
`serializer validation failed` with `transformed_data = None`;
otherwise `RDMRecord.validate` is called, and when it raises (which it
does for every non-empty payload, see `rdm_validate`) the surrounding
`except` re-raises after printing, so no field of the importer record
is written — modelled as `Except.error`.  When `validate` returns, the
status is `validated` or `validation failed` by `is_successful`, and
`transformed_data`, `errors`, `community_uuids`,
`validated_record_files` and `existing_record_id` are copied from the
record-type instance. -/
def validate_serialized_data (env : ValidateEnv) (inp : SerializerPayload)
    (serializer_errors : List ErrorMessage) (mode : String) :
    Except String ImporterRecordUpdate :=
  if serializer_errors ≠ [] then
    Except.ok
      { status := "serializer validation failed", errors := serializer_errors,
        serializer_data := none, transformed_data := none,
        community_uuids := none, validated_record_files := none,
        existing_record_id := none }
  else
    match rdm_validate env inp mode with
    | Except.error e => Except.error e
    | Except.ok st =>
        Except.ok
          { status := if st.is_successful then "validated" else "validation failed",
            errors := st.errors,
            serializer_data := inp.record_data,
            transformed_data := st.record,
            community_uuids := some st.community_uuids,
            validated_record_files := some st.validated_files,
            existing_record_id := inp.id }

/- ============================================================
   record_types/rdm.py — run / upsert orchestration
   ============================================================ -/

/-- The importer record document as the run step reads it
(`importer_record.get(...)` accesses in rdm.py).  Python truthiness of
`importer_record.get("existing_record_id")` identifies a missing key,
`None` and the empty string; `none` models a falsy value. -/
structure ImporterRecordDoc where
  status : String
  existing_record_id : Option String
  validated_record_files : List ValidatedFile
  transformed_data : Option RecordData
deriving DecidableEq, Repr

/-- Python truthiness of the optional string
`importer_record.get("existing_record_id")`. -/
def truthyId : Option String → Bool
  | none => false
  | some s => !(s = "")

/-- The lifecycle actions the orchestrator can choose between. -/
inductive UpsertAction
  | create
  | newVersion
  | newRevision
deriving DecidableEq, Repr

/-- `RDMRecord._update_record` (rdm.py, lines 238-250): a non-empty
`validated_record_files` selects the new-version path, otherwise the
new-revision path. -/
def update_record_action (importer_record : ImporterRecordDoc) : UpsertAction :=
  if importer_record.validated_record_files ≠ [] then UpsertAction.newVersion
  else UpsertAction.newRevision

/-- `RDMRecord._upsert_record` (rdm.py, lines 321-325): a truthy
`existing_record_id` selects an update, otherwise a create. -/
def upsert_record_action (importer_record : ImporterRecordDoc) : UpsertAction :=
  if truthyId importer_record.existing_record_id then
    update_record_action importer_record
  else UpsertAction.create

/-- What `RDMRecord.run` (rdm.py, lines 144-170) dispatches to: nothing
when the importer record is not in status `validated`, the upsert for
mode `import`, the delete otherwise. -/
inductive RunAction
  | noRun
  | upsert (a : UpsertAction)
  | deleteRecord
deriving DecidableEq, Repr

/-- The dispatch of `RDMRecord.run` (rdm.py, lines 152-159). -/
def rdm_run_action (mode : String) (importer_record : ImporterRecordDoc) : RunAction :=
  if importer_record.status ≠ "validated" then RunAction.noRun
  else if mode = "import" then RunAction.upsert (upsert_record_action importer_record)
  else RunAction.deleteRecord

/-- The record-service calls the orchestration paths issue, in order
(happy path: any raised exception aborts the rest). -/
inductive ServiceCall
  | createCall
  | editCall
  | newVersionCall
  | updateDraftCall
  | publishCall
  | initFilesCall (keys : List String)
  | setFileContentCall (key : String)
  | commitFileCall (key : String)
  | pidsCreateCall
  | reviewUpdateCall (communityId : String)
  | deleteRecordCall
deriving DecidableEq, Repr

/-- `RDMRecord._add_files_to_record` (rdm.py, lines 327-375): an early
return when there are no files, otherwise one `init_files` call then a
`set_file_content` and `commit_file` per file. -/
def add_files_to_record_calls (files : List ValidatedFile) : List ServiceCall :=
  if files = [] then []
  else ServiceCall.initFilesCall (files.map (fun f => f.key)) ::
    files.flatMap (fun f =>
      [ServiceCall.setFileContentCall f.key, ServiceCall.commitFileCall f.key])

/-- `RDMRecord._update_new_version_calls` trace (rdm.py, lines 284-319):
`new_version`, `update_draft` with the metadata, the file attachment,
then `publish`. -/
def update_new_version_calls (files : List ValidatedFile) : List ServiceCall :=
  ServiceCall.newVersionCall :: ServiceCall.updateDraftCall ::
    (add_files_to_record_calls files ++ [ServiceCall.publishCall])

/-- `RDMRecord._update_new_revision` trace (rdm.py, lines 252-282):
`edit`, `update_draft` with the metadata, then `publish`; no file
service call appears. -/
def update_new_revision_calls : List ServiceCall :=
  [ServiceCall.editCall, ServiceCall.updateDraftCall, ServiceCall.publishCall]

/-- The calls that touch the draft-files service. -/
def isFileCall : ServiceCall → Bool
  | ServiceCall.initFilesCall _ => true
  | ServiceCall.setFileContentCall _ => true
  | ServiceCall.commitFileCall _ => true
  | _ => false

/- ============================================================
   Theorems — task state calculator (C2, C3, C10)
   ============================================================ -/

/-- Helper: the if-chain always lands on one of the eight task
states. -/
theorem task_state_core_mem (t c s v vd imf su : Int) :
    task_state_core t c s v vd imf su ∈ importerTaskStateValues := by
  unfold task_state_core importerTaskStateValues
  split_ifs <;> decide

/-- C10: with a `total_records` key the calculator terminates without
raising and returns one of the eight task-state strings; without that
key it raises `KeyError`. -/
theorem calculate_task_state_safety (m : String → Option Int) :
    (m "total_records" = none →
      calculate_task_state m = Except.error "KeyError: total_records") ∧
    (∀ t, m "total_records" = some t →
      ∃ s, calculate_task_state m = Except.ok s ∧ s ∈ importerTaskStateValues) := by
  constructor
  · intro h
    unfold calculate_task_state
    rw [h]
  · intro t h
    unfold calculate_task_state
    rw [h]
    exact ⟨_, rfl, task_state_core_mem ..⟩

/-- C2 (code slip): a distribution with one record still `created` and
one already `validated` — a mixture still settling — is reported as
`created`, not `validating`: line 73's `or` makes the first branch fire
whenever any of the three validation counts is zero. -/
theorem calculate_task_state_mixture_reports_created :
    calculate_task_state (fun k =>
      if k = "total_records" then some 2
      else if k = "created" then some 1
      else if k = "validated" then some 1 else none) = Except.ok "created" ∧
    state_count (fun k =>
      if k = "total_records" then some 2
      else if k = "created" then some 1
      else if k = "validated" then some 1 else none) "validated" = 1 ∧
    "created" ≠ "validating" :=
  ⟨by rfl, by decide, by decide⟩

/-- C3 counterexample: a distribution with one `import failed` and one
`success` record is reported as `imported with failures`, so the
calculator does return that state with a positive `success` count
(matching the code's own test suite and refuting the claim's
"zero records in success" requirement). -/
theorem calculate_task_state_import_failed_despite_success :
    calculate_task_state (fun k =>
      if k = "total_records" then some 2
      else if k = "import failed" then some 1
      else if k = "success" then some 1 else none) =
      Except.ok "imported with failures" ∧
    state_count (fun k =>
      if k = "total_records" then some 2
      else if k = "import failed" then some 1
      else if k = "success" then some 1 else none) "success" = 1 :=
  ⟨by rfl, by decide⟩

/-- Helper: exact characterization of the `imported with failures`
outcome of the if-chain, for non-negative counts. -/
theorem task_state_core_import_failed_iff (t c s v vd imf su : Int)
    (hc : 0 ≤ c) (hs : 0 ≤ s) (hv : 0 ≤ v) (hvd : 0 ≤ vd) :
    task_state_core t c s v vd imf su = "imported with failures" ↔
      (t ≠ 0 ∧ c = 0 ∧ s = 0 ∧ v = 0 ∧ vd = 0 ∧ 0 < imf) := by
  unfold task_state_core
  split_ifs <;>
    first
      | exact iff_of_false (by decide) (by omega)
      | exact iff_of_true rfl (by omega)

/-- C3 amended: for non-negative counts, the calculator returns
`imported with failures` iff the total is non-zero, no record is in
`created` or either validation-failed state, zero records are in
`validated`, and at least one record is in `import failed` — regardless
of the `success` count (and of records in `validating`, which the
calculator never reads). -/
theorem calculate_task_state_import_failed_iff (m : String → Option Int) (t : Int)
    (ht : m "total_records" = some t)
    (hnn : ∀ k, 0 ≤ state_count m k) :
    calculate_task_state m = Except.ok "imported with failures" ↔
      (t ≠ 0 ∧ state_count m "created" = 0 ∧
        state_count m "serializer validation failed" = 0 ∧
        state_count m "validation failed" = 0 ∧
        state_count m "validated" = 0 ∧
        0 < state_count m "import failed") := by
  unfold calculate_task_state
  rw [ht]
  rw [show (Except.ok (task_state_core t (state_count m "created")
      (state_count m "serializer validation failed")
      (state_count m "validation failed") (state_count m "validated")
      (state_count m "import failed") (state_count m "success")) =
      (Except.ok "imported with failures" : Except String String)) ↔
      (task_state_core t (state_count m "created")
        (state_count m "serializer validation failed")
        (state_count m "validation failed") (state_count m "validated")
        (state_count m "import failed") (state_count m "success") =
        "imported with failures") from by
    constructor
    · intro h; exact Except.ok.inj h
    · intro h; rw [h]]
  exact task_state_core_import_failed_iff t _ _ _ _ _ _
    (hnn "created") (hnn "serializer validation failed")
    (hnn "validation failed") (hnn "validated")

/-- Witness for the amended C3 theorem at a concrete distribution. -/
theorem calculate_task_state_import_failed_iff_witness :
    calculate_task_state (fun k =>
      if k = "total_records" then some 3
      else if k = "import failed" then some 3 else none) =
      Except.ok "imported with failures" :=
  (calculate_task_state_import_failed_iff
      (fun k => if k = "total_records" then some 3
        else if k = "import failed" then some 3 else none) 3 rfl
      (by intro k; unfold state_count; dsimp only; split_ifs <;> decide)).mpr
    (by refine ⟨by decide, by decide, by decide, by decide, by decide, by decide⟩)

/- ============================================================
   Theorems — run step status (C4) and upsert decision (C1)
   ============================================================ -/

/-- C4 (code bug): the run step writes `"success"` on success but
`"creation failed"` — not `"import failed"` — on failure, and
`"creation failed"` is not a member of the importer-record state
enumeration, so it is rejected by the service schema's own
`validate_record_status`. -/
theorem run_transformed_record_status_divergence :
    run_transformed_record_status true = "success" ∧
    run_transformed_record_status false = "creation failed" ∧
    validate_record_status (run_transformed_record_status false) = false ∧
    validate_record_status "import failed" = true := by decide

/-- C1: for an importer record in status `validated` processed in mode
`import`, the run step dispatches to the upsert, and the upsert chooses
exactly one action: create when `existing_record_id` is falsy;
new-version (which issues `update_draft` for the metadata and the file
calls for every file) when it is truthy and `validated_record_files` is
non-empty; new-revision (which issues `update_draft` and no file call)
when it is truthy and `validated_record_files` is empty. -/
theorem rdm_upsert_decision (rec : ImporterRecordDoc) (mode : String)
    (hstatus : rec.status = "validated") (hmode : mode = "import") :
    rdm_run_action mode rec = RunAction.upsert (upsert_record_action rec) ∧
    (truthyId rec.existing_record_id = false →
      upsert_record_action rec = UpsertAction.create) ∧
    (truthyId rec.existing_record_id = true → rec.validated_record_files ≠ [] →
      upsert_record_action rec = UpsertAction.newVersion ∧
      ServiceCall.updateDraftCall ∈ update_new_version_calls rec.validated_record_files ∧
      ∀ f ∈ rec.validated_record_files,
        ServiceCall.setFileContentCall f.key ∈
          update_new_version_calls rec.validated_record_files ∧
        ServiceCall.commitFileCall f.key ∈
          update_new_version_calls rec.validated_record_files) ∧
    (truthyId rec.existing_record_id = true → rec.validated_record_files = [] →
      upsert_record_action rec = UpsertAction.newRevision ∧
      ServiceCall.updateDraftCall ∈ update_new_revision_calls ∧
      ∀ c ∈ update_new_revision_calls, isFileCall c = false) := by
  subst hmode
  refine ⟨?_, ?_, ?_, ?_⟩
  · unfold rdm_run_action
    rw [hstatus]
    simp
  · intro h
    unfold upsert_record_action
    rw [h]
    simp
  · intro h hf
    unfold upsert_record_action update_record_action
    rw [h]
    refine ⟨by simp [hf], by simp [update_new_version_calls], ?_⟩
    intro f hfm
    unfold update_new_version_calls add_files_to_record_calls
    constructor
    · simp only [List.mem_cons]
      right; right
      rw [List.mem_append]
      left
      simp only [hf, if_neg, List.mem_cons]
      right
      exact List.mem_flatMap.mpr ⟨f, hfm, by simp⟩
    · simp only [List.mem_cons]
      right; right
      rw [List.mem_append]
      left
      simp only [hf, if_neg, List.mem_cons]
      right
      exact List.mem_flatMap.mpr ⟨f, hfm, by simp⟩
  · intro h hf
    unfold upsert_record_action update_record_action
    rw [h]
    exact ⟨by simp [hf], by decide, by decide⟩

/-- Witness for the C1 decision theorem at a concrete validated record
with an existing id and one validated file. -/
theorem rdm_upsert_decision_witness :
    upsert_record_action
      { status := "validated", existing_record_id := some "abcde-12345",
        validated_record_files :=
          [{ key := "a.pdf", full_path := "a.pdf", size := some 7, origin := "local" }],
        transformed_data := none } = UpsertAction.newVersion :=
  ((rdm_upsert_decision
      { status := "validated", existing_record_id := some "abcde-12345",
        validated_record_files :=
          [{ key := "a.pdf", full_path := "a.pdf", size := some 7, origin := "local" }],
        transformed_data := none } "import" rfl rfl).2.2.1 (by decide) (by decide)).1

/- ============================================================
   Theorems — community verification (C7)
   ============================================================ -/

/-- The errors the enumerate loop of `_verify_communities_exist` adds:
one `community_not_found` per unresolvable slug, in order. -/
def community_loop_errors (env : CommunityEnv) (cs : List String) : List ErrorMessage :=
  cs.flatMap (fun c =>
    match env.resolve c with
    | some _ => []
    | none =>
        [{ type := "community_not_found", loc := "communities",
           msg := "Community '" ++ c ++ "' not found." }])

/-- Helper: from any index other than 0 the loop never touches
`default`; it appends the resolved uuids to `ids` and the
not-found errors to `errors`. -/
theorem check_communities_from_pos (env : CommunityEnv) (st : RecordState)
    (idx : Nat) (cs : List String) (h : idx ≠ 0) :
    check_communities_from env st idx cs =
      { st with
        errors := st.errors ++ community_loop_errors env cs,
        is_successful := st.is_successful && (community_loop_errors env cs).isEmpty,
        community_uuids :=
          { default := st.community_uuids.default,
            ids := st.community_uuids.ids ++ cs.filterMap env.resolve } } := by
  induction cs generalizing st idx with
  | nil => simp [check_communities_from, community_loop_errors]
  | cons c cs ih =>
    cases hr : env.resolve c with
    | some uuid =>
        simp only [check_communities_from, check_community, hr, if_neg h]
        rw [ih _ _ (Nat.succ_ne_zero idx)]
        simp [community_loop_errors, hr, List.filterMap_cons]
    | none =>
        simp only [check_communities_from, check_community, hr]
        rw [ih _ _ (Nat.succ_ne_zero idx)]
        simp [add_error, community_loop_errors, hr, List.filterMap_cons]

/-- C7 amended: on a non-empty community list, `default` is the
resolution of the first identifier of the list — it stays unset when
that first identifier does not resolve, even if a later one does —
`ids` collects the uuids of all resolvable identifiers in input order,
and every unresolvable identifier contributes a `community_not_found`
error without stopping the loop. -/
theorem verify_communities_exist_characterization (env : CommunityEnv)
    (c : String) (cs : List String) :
    (verify_communities_exist env initRecordState (c :: cs)).community_uuids.default =
      env.resolve c ∧
    (verify_communities_exist env initRecordState (c :: cs)).community_uuids.ids =
      (c :: cs).filterMap env.resolve ∧
    (verify_communities_exist env initRecordState (c :: cs)).errors =
      community_loop_errors env (c :: cs) ∧
    ∀ slug ∈ c :: cs, env.resolve slug = none →
      { type := "community_not_found", loc := "communities",
        msg := "Community '" ++ slug ++ "' not found." } ∈
        (verify_communities_exist env initRecordState (c :: cs)).errors := by
  have hmain : (verify_communities_exist env initRecordState (c :: cs)) =
      check_communities_from env
        (check_community env initRecordState 0 c) 1 cs := by
    unfold verify_communities_exist
    rw [if_neg (by simp)]
    rfl
  have hpos := check_communities_from_pos env
    (check_community env initRecordState 0 c) 1 cs (by omega)
  refine ⟨?_, ?_, ?_, ?_⟩
  · rw [hmain, hpos]
    unfold check_community
    cases hr : env.resolve c with
    | some uuid => simp [initRecordState]
    | none => simp [add_error, initRecordState]
  · rw [hmain, hpos]
    unfold check_community
    cases hr : env.resolve c with
    | some uuid => simp [initRecordState, List.filterMap_cons, hr]
    | none => simp [add_error, initRecordState, List.filterMap_cons, hr]
  · rw [hmain, hpos]
    unfold check_community
    cases hr : env.resolve c with
    | some uuid => simp [initRecordState, community_loop_errors, hr]
    | none => simp [add_error, initRecordState, community_loop_errors, hr]
  · intro slug hmem hr
    rw [hmain, hpos]
    unfold check_community
    rcases List.mem_cons.mp hmem with rfl | hmem2
    · rw [hr]
      simp [add_error, initRecordState]
    · cases hc : env.resolve c with
      | some uuid =>
          simp only [hc, initRecordState]
          refine List.mem_append_right _ ?_
          exact List.mem_flatMap.mpr ⟨slug, hmem2, by rw [hr]; simp⟩
      | none =>
          simp only [hc, add_error, initRecordState]
          refine List.mem_append_right _ ?_
          exact List.mem_flatMap.mpr ⟨slug, hmem2, by rw [hr]; simp⟩

/-- C7 counterexample: with the first identifier unresolvable and the
second resolvable, `default` stays unset while `ids` still collects the
second identifier's uuid — the claim requires `default` to be the uuid
of the first identifier that resolves. -/
theorem verify_communities_default_not_first_resolvable :
    (verify_communities_exist
      { resolve := fun s => if s = "good" then some "uuid-good" else none,
        is_community_required := false }
      initRecordState ["bad", "good"]).community_uuids =
      { default := none, ids := ["uuid-good"] } ∧
    CommunityEnv.resolve
      { resolve := fun s => if s = "good" then some "uuid-good" else none,
        is_community_required := false } "good" = some "uuid-good" := by decide

/- ============================================================
   Theorems — file accessibility (C6)
   ============================================================ -/

/-- Helper: emptiness of an appended list. -/
theorem list_isEmpty_append {α : Type} (a b : List α) :
    (a ++ b).isEmpty = (a.isEmpty && b.isEmpty) := by
  cases a <;> simp [List.isEmpty]

/-- The errors a single file check contributes (its effect on a fresh
state). -/
def file_check_errors (env : FileEnv) (file : String) : List ErrorMessage :=
  (check_file env initRecordState file).errors

/-- The validated-list entries a single file check contributes. -/
def file_check_validated (env : FileEnv) (file : String) : List ValidatedFile :=
  (check_file env initRecordState file).validated_files

/-- Helper: one file check only appends its own errors and validated
entries to the incoming state. -/
theorem check_file_split (env : FileEnv) (st : RecordState) (file : String) :
    check_file env st file =
      { st with
        errors := st.errors ++ file_check_errors env file,
        is_successful := st.is_successful && (file_check_errors env file).isEmpty,
        validated_files := st.validated_files ++ file_check_validated env file } := by
  unfold file_check_errors file_check_validated check_file
    check_url_file_accessibility check_s3_file_accessibility
    check_gs_file_accessibility check_invenio_file_accessibility
  split_ifs with h1 h2 h3
  · cases hh : env.head file with
    | response status cl =>
        by_cases h4 : status ≥ 400 <;>
          simp [h4, add_error, add_validated_file, initRecordState]
    | exn m => simp [add_error, initRecordState]
  · cases hs : env.s3 file with
    | found cl => simp [add_validated_file, initRecordState]
    | exn m => simp [add_error, initRecordState]
  · cases hg : env.gs file with
    | missing => simp [add_error, initRecordState]
    | found size => simp [add_validated_file, initRecordState]
    | exn m => simp [add_error, initRecordState]
  · cases hb : env.bucket.lookup file with
    | none => simp [add_error, initRecordState]
    | some size => simp [add_validated_file, initRecordState]

/-- Helper: every validated entry a file check contributes carries that
file as its `full_path`. -/
theorem file_check_validated_full_path (env : FileEnv) (file : String) :
    ∀ e ∈ file_check_validated env file, e.full_path = file := by
  intro e he
  unfold file_check_validated check_file
    check_url_file_accessibility check_s3_file_accessibility
    check_gs_file_accessibility check_invenio_file_accessibility at he
  split_ifs at he with h1 h2 h3
  · cases hh : env.head file with
    | response status cl =>
        rw [hh] at he
        by_cases h4 : 400 ≤ status <;>
          simp_all [add_error, add_validated_file, initRecordState]
    | exn m =>
        rw [hh] at he
        simp_all [add_error, add_validated_file, initRecordState]
  · cases hs : env.s3 file <;> rw [hs] at he <;>
      simp_all [add_error, add_validated_file, initRecordState]
  · cases hg : env.gs file <;> rw [hg] at he <;>
      simp_all [add_error, add_validated_file, initRecordState]
  · cases hb : env.bucket.lookup file <;> rw [hb] at he <;>
      simp_all [add_error, add_validated_file, initRecordState]

/-- Helper: the whole batch appends the per-file contributions in
order; no file's outcome interrupts the loop. -/
theorem verify_files_accessible_split (env : FileEnv) (st : RecordState)
    (files : List String) :
    verify_files_accessible env st files =
      { st with
        errors := st.errors ++ files.flatMap (file_check_errors env),
        is_successful := st.is_successful &&
          (files.flatMap (file_check_errors env)).isEmpty,
        validated_files := st.validated_files ++
          files.flatMap (file_check_validated env) } := by
  induction files generalizing st with
  | nil => simp [verify_files_accessible]
  | cons f fs ih =>
      have hstep : verify_files_accessible env st (f :: fs) =
          verify_files_accessible env (check_file env st f) fs := rfl
      rw [hstep, ih, check_file_split]
      simp [List.append_assoc, Bool.and_assoc, list_isEmpty_append]

/-- C6 amended: every unreachable file produces its structured error
without aborting the rest of the batch; a local file missing from the
bucket and a URL file whose HEAD request raises are excluded from the
validated list, but a URL file whose HEAD response has status `>= 400`
is still appended to the validated list alongside its error. -/
theorem verify_files_accessible_unreachable (env : FileEnv) (files : List String) :
    ∀ file ∈ files,
      ((pyStartswith "http://" file || pyStartswith "https://" file) = false →
        pyStartswith "s3:" file = false → pyStartswith "gs:" file = false →
        env.bucket.lookup file = none →
        ({ type := "file_not_found", loc := "files",
            msg := "File '" ++ file ++ "' not found in invenio bucket." } :
            ErrorMessage) ∈
          (verify_files_accessible env initRecordState files).errors ∧
        file ∉ (verify_files_accessible env initRecordState files).validated_files.map
          (fun e => e.full_path)) ∧
      (∀ m, (pyStartswith "http://" file || pyStartswith "https://" file) = true →
        env.head file = HeadOutcome.exn m →
        ({ type := "file_not_accessible", loc := "files",
            msg := "Error accessing URL file '" ++ file ++ "': " ++ m } :
            ErrorMessage) ∈
          (verify_files_accessible env initRecordState files).errors ∧
        file ∉ (verify_files_accessible env initRecordState files).validated_files.map
          (fun e => e.full_path)) ∧
      (∀ status contentLength,
        (pyStartswith "http://" file || pyStartswith "https://" file) = true →
        env.head file = HeadOutcome.response status contentLength → 400 ≤ status →
        ({ type := "file_not_accessible", loc := "files",
            msg := "Error accessing URL file '" ++ file ++
              "' returned status code " ++ toString status ++ "." } :
            ErrorMessage) ∈
          (verify_files_accessible env initRecordState files).errors ∧
        file ∈ (verify_files_accessible env initRecordState files).validated_files.map
          (fun e => e.full_path)) := by
  intro file hf
  rw [verify_files_accessible_split]
  simp only [initRecordState, List.nil_append]
  have hexcl : file_check_validated env file = [] →
      file ∉ (files.flatMap (file_check_validated env)).map (fun e => e.full_path) := by
    intro hempty hmem
    rcases List.mem_map.mp hmem with ⟨e, he, hfp⟩
    rcases List.mem_flatMap.mp he with ⟨g, hg, heg⟩
    have hgfp := file_check_validated_full_path env g e heg
    rw [hgfp] at hfp
    subst hfp
    rw [hempty] at heg
    exact absurd heg (List.not_mem_nil e)
  refine ⟨?_, ?_, ?_⟩
  · intro hurl hs3 hgs hbucket
    constructor
    · refine List.mem_flatMap.mpr ⟨file, hf, ?_⟩
      unfold file_check_errors check_file check_invenio_file_accessibility
      simp [hurl, hs3, hgs, hbucket, add_error, initRecordState]
    · apply hexcl
      unfold file_check_validated check_file check_invenio_file_accessibility
      simp [hurl, hs3, hgs, hbucket, add_error, initRecordState]
  · intro m hurl hexn
    constructor
    · refine List.mem_flatMap.mpr ⟨file, hf, ?_⟩
      unfold file_check_errors check_file check_url_file_accessibility
      simp [hurl, hexn, add_error, initRecordState]
    · apply hexcl
      unfold file_check_validated check_file check_url_file_accessibility
      simp [hurl, hexn, add_error, initRecordState]
  · intro status contentLength hurl hresp hstatus
    constructor
    · refine List.mem_flatMap.mpr ⟨file, hf, ?_⟩
      unfold file_check_errors check_file check_url_file_accessibility
      simp [hurl, hresp, hstatus, add_error, add_validated_file, initRecordState]
    · refine List.mem_map.mpr ?_
      refine ⟨{ key := (get_file_name file).1, full_path := file,
                size := if contentLength = some 0 then none else contentLength,
                origin := (get_file_name file).2 }, ?_, rfl⟩
      refine List.mem_flatMap.mpr ⟨file, hf, ?_⟩
      unfold file_check_validated check_file check_url_file_accessibility
      simp [hurl, hresp, hstatus, add_error, add_validated_file, initRecordState]

/-- C6 counterexample: a URL file whose HEAD response is 404 yields the
structured `file_not_accessible` error yet is still appended to the
validated-file list — the claim requires every unreachable file to be
excluded from that list. -/
theorem verify_files_url_404_still_in_validated_list :
    (verify_files_accessible
      { head := fun _ => HeadOutcome.response 404 none,
        s3 := fun _ => S3Outcome.exn "unused", gs := fun _ => GsOutcome.exn "unused",
        bucket := [] }
      initRecordState ["https://www.w3.org/2001/03/no_xml.xsd"]).errors =
      [{ type := "file_not_accessible", loc := "files",
          msg := "Error accessing URL file 'https://www.w3.org/2001/03/no_xml.xsd' returned status code 404." }] ∧
    (verify_files_accessible
      { head := fun _ => HeadOutcome.response 404 none,
        s3 := fun _ => S3Outcome.exn "unused", gs := fun _ => GsOutcome.exn "unused",
        bucket := [] }
      initRecordState ["https://www.w3.org/2001/03/no_xml.xsd"]).validated_files =
      [{ key := "no_xml.xsd", full_path := "https://www.w3.org/2001/03/no_xml.xsd",
          size := none, origin := "url" }] := by decide

/- ============================================================
   Theorems — validation step invariant (C5)
   ============================================================ -/

/-- An environment whose schema load always succeeds and whose other
collaborators are inert; the local bucket is empty. -/
def validateEnvSchemaOk : ValidateEnv :=
  { fileEnv :=
      { head := fun _ => HeadOutcome.exn "unused",
        s3 := fun _ => S3Outcome.exn "unused",
        gs := fun _ => GsOutcome.exn "unused",
        bucket := [] },
    communityEnv := { resolve := fun _ => none, is_community_required := false },
    recordExists := fun _ => true,
    schemaLoad := fun d _ => Except.ok d,
    preCommitErrors := fun _ => [] }

/-- C5: whenever the validation step completes — the update is written
back instead of an exception being re-raised — exactly one of (a)
`transformed_data` populated with status `validated`, or (b) a
non-empty error list with a failed-family status, holds; never both,
and never a failed status together with a populated `transformed_data`.
The completing executions are the serializer-error branch and the
empty-payload branch: for every non-empty payload `RDMRecord.validate`
raises `TypeError` at rdm.py line 133 (see `rdm_validate`) and the
step's `except` re-raises without writing any status.  On both
completing paths case (b) holds with `transformed_data = None`. -/
theorem validate_step_exactly_one (env : ValidateEnv) (inp : SerializerPayload)
    (serializer_errors : List ErrorMessage) (mode : String)
    (u : ImporterRecordUpdate)
    (hcomplete : validate_serialized_data env inp serializer_errors mode =
      Except.ok u) :
    Xor'
      (u.transformed_data ≠ none ∧ u.status = "validated")
      (u.errors ≠ [] ∧
        (u.status = "serializer validation failed" ∨
          u.status = "validation failed")) ∧
    ¬((u.status = "serializer validation failed" ∨
        u.status = "validation failed") ∧ u.transformed_data ≠ none) := by
  unfold validate_serialized_data at hcomplete
  by_cases hse : serializer_errors ≠ []
  · rw [if_pos hse] at hcomplete
    obtain rfl := Except.ok.inj hcomplete
    refine ⟨Or.inr ⟨⟨hse, Or.inl rfl⟩, ?_⟩, ?_⟩
    · rintro ⟨habs, -⟩
      exact habs rfl
    · rintro ⟨-, habs⟩
      exact habs rfl
  · rw [if_neg hse] at hcomplete
    unfold rdm_validate at hcomplete
    cases hrd : inp.record_data with
    | some data =>
        rw [hrd] at hcomplete
        simp at hcomplete
    | none =>
        rw [hrd] at hcomplete
        obtain rfl := Except.ok.inj hcomplete
        refine ⟨Or.inr ⟨⟨?_, Or.inr rfl⟩, ?_⟩, ?_⟩
        · simp [add_error, initRecordState]
        · rintro ⟨habs, -⟩
          exact habs rfl
        · rintro ⟨-, habs⟩
          exact habs rfl

/-- The serializer errors of the C5 witness row. -/
def serializerErrorsW : List ErrorMessage :=
  [{ type := "missing_field", loc := "title", msg := "Field may not be null." }]

/-- The update the validation step writes for the C5 witness row. -/
def serializerFailedUpdate : ImporterRecordUpdate :=
  { status := "serializer validation failed", errors := serializerErrorsW,
    serializer_data := none, transformed_data := none,
    community_uuids := none, validated_record_files := none,
    existing_record_id := none }

/-- Witness for the C5 theorem: a row with serializer errors completes
the step, and the invariant holds there through case (b). -/
theorem validate_step_exactly_one_witness :
    Xor'
      (serializerFailedUpdate.transformed_data ≠ none ∧
        serializerFailedUpdate.status = "validated")
      (serializerFailedUpdate.errors ≠ [] ∧
        (serializerFailedUpdate.status = "serializer validation failed" ∨
          serializerFailedUpdate.status = "validation failed")) ∧
    ¬((serializerFailedUpdate.status = "serializer validation failed" ∨
        serializerFailedUpdate.status = "validation failed") ∧
      serializerFailedUpdate.transformed_data ≠ none) :=
  validate_step_exactly_one validateEnvSchemaOk
    { id := none, files := [], communities := [], record_data := none }
    serializerErrorsW "import" serializerFailedUpdate rfl

/- ============================================================
   Theorems — grouped-field transform (C8, C9)
   ============================================================ -/

/-- Helper: `max` fold over a non-empty list of copies of `N` is `N`. -/
theorem list_foldr_max_const (l : List Nat) (N : Nat) (hne : l ≠ [])
    (h : ∀ x ∈ l, x = N) : l.foldr max 0 = N := by
  induction l with
  | nil => exact absurd rfl hne
  | cons a as ih =>
      simp only [List.foldr_cons]
      by_cases h2 : as = []
      · subst h2
        simp [h a (List.mem_cons_self a [])]
      · rw [ih h2 (fun x hx => h x (List.mem_cons_of_mem a hx))]
        rw [h a (List.mem_cons_self a as)]
        simp

/-- Helper: `getD` at an in-range index is a member. -/
theorem list_getD_mem {α : Type} (l : List α) (n : Nat) (d : α) (h : n < l.length) :
    l.getD n d ∈ l := by
  induction l generalizing n with
  | nil => simp at h
  | cons a as ih =>
      cases n with
      | zero => simp
      | succ m =>
          simp only [List.getD_cons_succ]
          exact List.mem_cons_of_mem a (ih m (by simpa using h))

/-- Helper: `getD` through a `map` with the default supplied on the
source side. -/
theorem list_getD_map {α β : Type} (f : α → β) (l : List α) (j : Nat) (d : α)
    (h : j < l.length) : (l.map f).getD j (f d) = f (l.getD j d) := by
  induction l generalizing j with
  | nil => simp at h
  | cons a as ih =>
      cases j with
      | zero => rfl
      | succ m =>
          simp only [List.map_cons, List.getD_cons_succ]
          exact ih m (by simpa using h)

/-- Helper: the number of items for a fully populated group is the
common split length. -/
theorem numGroupItems_const (group_input : List (String × String)) (N : Nat)
    (hne : group_input ≠ [])
    (hlen : ∀ kv ∈ group_input, (pySplit '\n' kv.2).length = N) :
    numGroupItems group_input = N := by
  unfold numGroupItems
  apply list_foldr_max_const
  · simp [hne]
  · intro x hx
    rcases List.mem_map.mp hx with ⟨kv, hkv, rfl⟩
    exact hlen kv hkv

/-- C8: when every selected column splits into exactly `N` slices, all
non-blank, the transform yields exactly `N` item dicts in input order,
the i-th assembled from the i-th slice of every column; and (always)
every emitted item has at least one present value — the all-empty
items are dropped. -/
theorem process_grouped_fields_fully_populated (original : List (String × String))
    (group_pre : String) (N : Nat)
    (hne : groupColumns original group_pre ≠ [])
    (hlen : ∀ kv ∈ groupColumns original group_pre, (pySplit '\n' kv.2).length = N)
    (hblank : ∀ kv ∈ groupColumns original group_pre,
      ∀ v ∈ pySplit '\n' kv.2, pyBlank v = false) :
    process_grouped_fields original group_pre =
      (List.range N).map (fun i =>
        (groupColumns original group_pre).map (fun kv =>
          (columnSuffix kv.1, some ((pySplit '\n' kv.2).getD i "")))) ∧
    ∀ item ∈ process_grouped_fields original group_pre,
      ∃ kv ∈ item, kv.2 ≠ none := by
  have hitem : ∀ i, i < N →
      groupItem (groupColumns original group_pre) i =
        (groupColumns original group_pre).map (fun kv =>
          (columnSuffix kv.1, some ((pySplit '\n' kv.2).getD i ""))) := by
    intro i hi
    unfold groupItem
    apply List.map_congr_left
    intro kv hkv
    have hl := hlen kv hkv
    have hcond : i < (pySplit '\n' kv.2).length ∧
        pyBlank ((pySplit '\n' kv.2).getD i "") = false := by
      refine ⟨by omega, ?_⟩
      exact hblank kv hkv _ (list_getD_mem _ i "" (by omega))
    dsimp only
    rw [if_pos hcond]
  have hmain : process_grouped_fields original group_pre =
      (List.range N).map (fun i =>
        (groupColumns original group_pre).map (fun kv =>
          (columnSuffix kv.1, some ((pySplit '\n' kv.2).getD i "")))) := by
    unfold process_grouped_fields
    dsimp only
    rw [numGroupItems_const (groupColumns original group_pre) N hne hlen]
    rw [List.map_congr_left (fun i hi =>
      hitem i (List.mem_range.mp hi))]
    apply List.filter_eq_self.mpr
    intro item hmem
    rcases List.mem_map.mp hmem with ⟨i, hi, rfl⟩
    cases hg : groupColumns original group_pre with
    | nil => exact absurd hg hne
    | cons kv kvs => simp
  refine ⟨hmain, ?_⟩
  intro item hmem
  rw [hmain] at hmem
  rcases List.mem_map.mp hmem with ⟨i, hi, rfl⟩
  cases hg : groupColumns original group_pre with
  | nil => exact absurd hg hne
  | cons kv kvs =>
      refine ⟨(columnSuffix kv.1, some ((pySplit '\n' kv.2).getD i "")), ?_, by simp⟩
      simp

/-- Witness for the C8 theorem on a two-person, two-column row. -/
theorem process_grouped_fields_fully_populated_witness :
    process_grouped_fields
      [("creators.given_name", "Ada\nGrace"),
       ("creators.family_name", "Lovelace\nHopper")] "creators" =
      (List.range 2).map (fun i =>
        (groupColumns
          [("creators.given_name", "Ada\nGrace"),
           ("creators.family_name", "Lovelace\nHopper")] "creators").map (fun kv =>
          (columnSuffix kv.1, some ((pySplit '\n' kv.2).getD i "")))) ∧
    ∀ item ∈ process_grouped_fields
      [("creators.given_name", "Ada\nGrace"),
       ("creators.family_name", "Lovelace\nHopper")] "creators",
      ∃ kv ∈ item, kv.2 ≠ none :=
  process_grouped_fields_fully_populated
    [("creators.given_name", "Ada\nGrace"),
     ("creators.family_name", "Lovelace\nHopper")] "creators" 2
    (by decide) (by decide) (by decide)

/-- C9: the transform is total on ragged input — every emitted item is
the item built at some in-range index — and at any index a column
whose split is too short, or whose i-th slice is blank, contributes
`None` for its suffix instead of an out-of-range access. -/
theorem process_grouped_fields_ragged_safe (original : List (String × String))
    (group_pre : String) (i : Nat) :
    (∀ item ∈ process_grouped_fields original group_pre,
      ∃ j, j < numGroupItems (groupColumns original group_pre) ∧
        item = groupItem (groupColumns original group_pre) j) ∧
    (∀ j, j < (groupColumns original group_pre).length →
      ((pySplit '\n' ((groupColumns original group_pre).getD j ("", "")).2).length ≤ i ∨
        pyBlank ((pySplit '\n'
          ((groupColumns original group_pre).getD j ("", "")).2).getD i "") = true) →
      (groupItem (groupColumns original group_pre) i).getD j ("", none) =
        (columnSuffix ((groupColumns original group_pre).getD j ("", "")).1, none)) := by
  constructor
  · intro item hmem
    unfold process_grouped_fields at hmem
    rcases List.mem_map.mp (List.mem_of_mem_filter hmem) with ⟨j, hj, rfl⟩
    exact ⟨j, List.mem_range.mp hj, rfl⟩
  · intro j hj hmiss
    have hfd : (fun kv : String × String =>
        let values := pySplit '\n' kv.2
        (columnSuffix kv.1,
          if i < values.length ∧ pyBlank (values.getD i "") = false then
            some (values.getD i "")
          else none)) ("", "") = (("" : String), (none : Option String)) := by
      have hgd : ([""] : List String).getD i "" = "" := by
        cases i with
        | zero => rfl
        | succ m => simp [List.getD]
      dsimp only
      have hps : pySplit '\n' ("" : String) = [""] := by decide
      have hpb : pyBlank ("" : String) = true := by decide
      rw [hps, hgd, hpb]
      simp [show columnSuffix ("" : String) = "" from by decide]
    unfold groupItem
    rw [← hfd]
    rw [list_getD_map _ _ j ("", "") hj]
    dsimp only
    have hcond : ¬(i < (pySplit '\n'
        ((groupColumns original group_pre).getD j ("", "")).2).length ∧
        pyBlank ((pySplit '\n'
          ((groupColumns original group_pre).getD j ("", "")).2).getD i "") = false) := by
      rcases hmiss with h | h
      · intro hc
        omega
      · intro hc
        rw [h] at hc
        exact absurd hc.2 (by decide)
    rw [if_neg hcond]

/-- Witness for the C6 theorem: a local file missing from an empty
bucket yields `file_not_found` and is excluded from the validated
list. -/
theorem verify_files_accessible_unreachable_witness :
    ({ type := "file_not_found", loc := "files",
        msg := "File 'README1.rst' not found in invenio bucket." } : ErrorMessage) ∈
      (verify_files_accessible
        { head := fun _ => HeadOutcome.exn "unused",
          s3 := fun _ => S3Outcome.exn "unused", gs := fun _ => GsOutcome.exn "unused",
          bucket := [] }
        initRecordState ["README1.rst"]).errors ∧
    "README1.rst" ∉ (verify_files_accessible
        { head := fun _ => HeadOutcome.exn "unused",
          s3 := fun _ => S3Outcome.exn "unused", gs := fun _ => GsOutcome.exn "unused",
          bucket := [] }
        initRecordState ["README1.rst"]).validated_files.map (fun e => e.full_path) :=
  ((verify_files_accessible_unreachable
      { head := fun _ => HeadOutcome.exn "unused",
        s3 := fun _ => S3Outcome.exn "unused", gs := fun _ => GsOutcome.exn "unused",
        bucket := [] }
      ["README1.rst"] "README1.rst" (by decide)).1
    (by decide) (by decide) (by decide) rfl)
